import Mathlib

/-!
Shallow embedding of the persistent safety-storage layer of
consensus/safety-rules/src/persistent_safety_storage.rs.

Key material, authors (account addresses) and vote records are opaque to this
layer, so they are modelled as natural numbers.  The secure backend
(aptos_secure_storage::Storage) is modelled as a record store with one slot
per fixed record name (CONSENSUS_KEY, EXECUTION_KEY, OWNER_ACCOUNT,
SAFETY_DATA, WAYPOINT) together with a failure-injection plan: every mutating
backend call (a key import or a set) consumes one entry of the plan and fails
with an unavailable error when that entry is true; an exhausted plan means no
injected failures.  Reads do not mutate the backend, matching the source where
get takes a shared reference, and fail only when the record is absent.

The observability port (the counters module and the structured audit log) is
modelled explicitly as an Obs value threaded through the mutating operations,
so that gauge updates and audit emissions become visible state transitions.
The gauge exports reproduce the source's wrapping u64-to-i64 casts (the
as-i64 cast on each u64 field) through u64_as_i64.
A Rust panic (the .expect calls inside initialize) is modelled as Option.none.
-/

abbrev PrivKey := Nat

abbrev Author := Nat

/-- Waypoint: a verifiable checkpoint of ledger state, carrying a version and
a digest.  This layer only stores and returns it; version is what the
waypoint-version gauge records. -/
structure Waypoint where
  version : Nat
  digest : Nat
deriving DecidableEq

/-- SafetyData as used by safety rules: epoch, last voted round, preferred
round, the one-chain round counter and an optional last vote (opaque). -/
structure SafetyData where
  epoch : Nat
  last_voted_round : Nat
  preferred_round : Nat
  one_chain_round : Nat
  last_vote : Option Nat
deriving DecidableEq

/-- Mirrors SafetyData::new(epoch, last_voted_round, preferred_round,
one_chain_round, last_vote). -/
def SafetyData.new (epoch last_voted_round preferred_round one_chain_round : Nat)
    (last_vote : Option Nat) : SafetyData :=
  { epoch := epoch
    last_voted_round := last_voted_round
    preferred_round := preferred_round
    one_chain_round := one_chain_round
    last_vote := last_vote }

/-- Errors reported by the secure backend (aptos_secure_storage::Error,
restricted to the cases this layer distinguishes). -/
inductive SecureStorageError where
  | keyAlreadyExists
  | keyNotFound
  | unavailable
deriving DecidableEq

/-- The safety-rules Error type, restricted to the constructors produced by
persistent_safety_storage.rs: the From conversion used by the question-mark
operator, and the explicit SecureStorageUnexpectedError wrapping in
set_safety_data. -/
inductive Error where
  | secureStorageError (e : SecureStorageError)
  | secureStorageUnexpectedError (e : SecureStorageError)
deriving DecidableEq

/-- The secure backend: one slot per fixed record name, plus the
failure-injection plan consumed by mutating calls. -/
structure Storage where
  consensus_key : Option PrivKey
  execution_key : Option PrivKey
  owner_account : Option Author
  stored_safety_data : Option SafetyData
  stored_waypoint : Option Waypoint
  fail_plan : List Bool
deriving DecidableEq

/-- Consume one entry of the failure-injection plan; true means the current
mutating backend call fails. -/
def Storage.tick (s : Storage) : Bool × Storage :=
  match s.fail_plan with
  | [] => (false, s)
  | b :: rest => (b, { s with fail_plan := rest })

/-- internal_store.import_private_key(CONSENSUS_KEY, key): fails with
KeyAlreadyExists when a key is already stored under the consensus name. -/
def Storage.import_consensus_key (s : Storage) (key : PrivKey) :
    Except SecureStorageError Unit × Storage :=
  match Storage.tick s with
  | (true, s1) => (.error .unavailable, s1)
  | (false, s1) =>
    match s1.consensus_key with
    | some _ => (.error .keyAlreadyExists, s1)
    | none => (.ok (), { s1 with consensus_key := some key })

/-- internal_store.import_private_key(EXECUTION_KEY, key). -/
def Storage.import_execution_key (s : Storage) (key : PrivKey) :
    Except SecureStorageError Unit × Storage :=
  match Storage.tick s with
  | (true, s1) => (.error .unavailable, s1)
  | (false, s1) =>
    match s1.execution_key with
    | some _ => (.error .keyAlreadyExists, s1)
    | none => (.ok (), { s1 with execution_key := some key })

/-- internal_store.set(OWNER_ACCOUNT, author). -/
def Storage.write_owner_account (s : Storage) (author : Author) :
    Except SecureStorageError Unit × Storage :=
  match Storage.tick s with
  | (true, s1) => (.error .unavailable, s1)
  | (false, s1) => (.ok (), { s1 with owner_account := some author })

/-- internal_store.set(SAFETY_DATA, data). -/
def Storage.write_safety_data (s : Storage) (data : SafetyData) :
    Except SecureStorageError Unit × Storage :=
  match Storage.tick s with
  | (true, s1) => (.error .unavailable, s1)
  | (false, s1) => (.ok (), { s1 with stored_safety_data := some data })

/-- internal_store.set(WAYPOINT, waypoint). -/
def Storage.write_waypoint (s : Storage) (w : Waypoint) :
    Except SecureStorageError Unit × Storage :=
  match Storage.tick s with
  | (true, s1) => (.error .unavailable, s1)
  | (false, s1) => (.ok (), { s1 with stored_waypoint := some w })

/-- internal_store.get(OWNER_ACCOUNT).map(v => v.value). -/
def Storage.read_owner_account (s : Storage) : Except SecureStorageError Author :=
  match s.owner_account with
  | some a => .ok a
  | none => .error .keyNotFound

/-- internal_store.get(SAFETY_DATA).map(v => v.value). -/
def Storage.read_safety_data (s : Storage) : Except SecureStorageError SafetyData :=
  match s.stored_safety_data with
  | some d => .ok d
  | none => .error .keyNotFound

/-- internal_store.get(WAYPOINT).map(v => v.value). -/
def Storage.read_waypoint (s : Storage) : Except SecureStorageError Waypoint :=
  match s.stored_waypoint with
  | some w => .ok w
  | none => .error .keyNotFound

/-- The gauges exported through the counters module: EPOCH, LAST_VOTED_ROUND,
PREFERRED_ROUND and WAYPOINT_VERSION. -/
structure Counters where
  epoch : Int
  last_voted_round : Int
  preferred_round : Int
  waypoint_version : Int
deriving DecidableEq

/-- The observability port: the gauge registry plus the structured audit log
of waypoint updates emitted by set_waypoint. -/
structure Obs where
  counters : Counters
  waypoint_audit : List Waypoint
deriving DecidableEq

/-- The wrapping u64-to-i64 cast, the Rust as-i64 cast applied to a u64
value: values below 2 ^ 63 are unchanged, larger ones wrap to negatives. -/
def u64_as_i64 (n : Nat) : Int :=
  if n % 2 ^ 64 < 2 ^ 63 then Int.ofNat (n % 2 ^ 64)
  else Int.ofNat (n % 2 ^ 64) - 2 ^ 64

/-- The orchestrator state: the caching switch, the tri-state cache (none is
the Unknown state, some d is Known d) and the owned backend handle. -/
structure PersistentSafetyStorage where
  enable_cached_safety_data : Bool
  cached_safety_data : Option SafetyData
  internal_store : Storage
deriving DecidableEq

/-- PersistentSafetyStorage::new: wrap an existing data store; no backend
operation is performed and the cache starts Unknown. -/
def PersistentSafetyStorage.new (internal_store : Storage)
    (enable_cached_safety_data : Bool) : PersistentSafetyStorage :=
  { enable_cached_safety_data := enable_cached_safety_data
    cached_safety_data := none
    internal_store := internal_store }

/-- PersistentSafetyStorage::author: read-through to the backend. -/
def PersistentSafetyStorage.author (st : PersistentSafetyStorage) :
    Except Error Author :=
  match Storage.read_owner_account st.internal_store with
  | .ok v => .ok v
  | .error e => .error (.secureStorageError e)

/-- PersistentSafetyStorage::waypoint: read-through to the backend. -/
def PersistentSafetyStorage.waypoint (st : PersistentSafetyStorage) :
    Except Error Waypoint :=
  match Storage.read_waypoint st.internal_store with
  | .ok v => .ok v
  | .error e => .error (.secureStorageError e)

/-- PersistentSafetyStorage::safety_data: with caching disabled always read
the backend; with caching enabled return the cached value when Known,
otherwise read the backend and populate the cache. -/
def PersistentSafetyStorage.safety_data (st : PersistentSafetyStorage) :
    Except Error SafetyData × PersistentSafetyStorage :=
  if st.enable_cached_safety_data = false then
    match Storage.read_safety_data st.internal_store with
    | .ok v => (.ok v, st)
    | .error e => (.error (.secureStorageError e), st)
  else
    match st.cached_safety_data with
    | some cached => (.ok cached, st)
    | none =>
      match Storage.read_safety_data st.internal_store with
      | .ok v => (.ok v, { st with cached_safety_data := some v })
      | .error e => (.error (.secureStorageError e), st)

/-- PersistentSafetyStorage::set_safety_data: export the epoch,
last-voted-round and preferred-round gauges (each through the wrapping
as-i64 cast of the source), then write through to the backend; on success
cache Known(data), on failure cache Unknown and wrap the error as
SecureStorageUnexpectedError. -/
def PersistentSafetyStorage.set_safety_data (st : PersistentSafetyStorage)
    (obs : Obs) (data : SafetyData) :
    Except Error Unit × PersistentSafetyStorage × Obs :=
  let obs1 : Obs :=
    { obs with counters :=
      { obs.counters with
        epoch := u64_as_i64 data.epoch
        last_voted_round := u64_as_i64 data.last_voted_round
        preferred_round := u64_as_i64 data.preferred_round } }
  match Storage.write_safety_data st.internal_store data with
  | (.ok _, s1) =>
    (.ok (), { st with cached_safety_data := some data, internal_store := s1 }, obs1)
  | (.error e, s1) =>
    (.error (.secureStorageUnexpectedError e),
      { st with cached_safety_data := none, internal_store := s1 }, obs1)

/-- PersistentSafetyStorage::set_waypoint: export the waypoint-version gauge
(through the wrapping as-i64 cast of the source), write through to the
backend, and on success emit one structured audit record for the update. -/
def PersistentSafetyStorage.set_waypoint (st : PersistentSafetyStorage)
    (obs : Obs) (w : Waypoint) :
    Except Error Unit × PersistentSafetyStorage × Obs :=
  let obs1 : Obs :=
    { obs with counters := { obs.counters with waypoint_version := u64_as_i64 w.version } }
  match Storage.write_waypoint st.internal_store w with
  | (.ok _, s1) =>
    (.ok (), { st with internal_store := s1 },
      { obs1 with waypoint_audit := obs1.waypoint_audit ++ [w] })
  | (.error e, s1) =>
    (.error (.secureStorageError e), { st with internal_store := s1 }, obs1)

/-- PersistentSafetyStorage::initialize_keys_and_accounts.  The result of the
consensus-key import is bound and inspected only for KeyAlreadyExists, which
short-circuits with Ok; any other outcome of that first import, including a
backend failure, is dropped and the sequence continues, exactly as in the
source. -/
def PersistentSafetyStorage.initialize_keys_and_accounts (store : Storage)
    (author : Author) (consensus_private_key execution_private_key : PrivKey) :
    Except Error Unit × Storage :=
  match Storage.import_consensus_key store consensus_private_key with
  | (.error .keyAlreadyExists, s1) => (.ok (), s1)
  | (_, s1) =>
    match Storage.import_execution_key s1 execution_private_key with
    | (.error e, s2) => (.error (.secureStorageError e), s2)
    | (.ok _, s2) =>
      match Storage.write_owner_account s2 author with
      | (.error e, s3) => (.error (.secureStorageError e), s3)
      | (.ok _, s3) => (.ok (), s3)

/-- PersistentSafetyStorage::initialize: run the key/account initialization,
build the instance with a warm cache holding the default SafetyData, then
write the default SafetyData and the supplied waypoint through the instance.
Each .expect in the source panics on error, modelled as none. -/
def PersistentSafetyStorage.initialize_store (store : Storage) (obs : Obs)
    (author : Author) (consensus_private_key execution_private_key : PrivKey)
    (waypoint : Waypoint) (enable_cached_safety_data : Bool) :
    Option (PersistentSafetyStorage × Obs) :=
  match PersistentSafetyStorage.initialize_keys_and_accounts store author
      consensus_private_key execution_private_key with
  | (.error _, _) => none
  | (.ok _, s1) =>
    let sd := SafetyData.new 1 0 0 0 none
    let st0 : PersistentSafetyStorage :=
      { enable_cached_safety_data := enable_cached_safety_data
        cached_safety_data := some sd
        internal_store := s1 }
    match PersistentSafetyStorage.set_safety_data st0 obs sd with
    | (.error _, _, _) => none
    | (.ok _, st1, obs1) =>
      match PersistentSafetyStorage.set_waypoint st1 obs1 waypoint with
      | (.error _, _, _) => none
      | (.ok _, st2, obs2) => some (st2, obs2)

/-- Zeroed gauges and empty audit log, used for concrete runs. -/
def Obs.init : Obs :=
  { counters := { epoch := 0, last_voted_round := 0, preferred_round := 0, waypoint_version := 0 }
    waypoint_audit := [] }

/-! Helper lemmas about the backend write primitives. -/

theorem Storage.write_safety_data_ok_stored (s : Storage) (d : SafetyData)
    (s1 : Storage) (h : Storage.write_safety_data s d = (.ok (), s1)) :
    s1.stored_safety_data = some d := by
  unfold Storage.write_safety_data Storage.tick at h
  cases hp : s.fail_plan with
  | nil => rw [hp] at h; simp at h; subst h; rfl
  | cons b rest =>
    rw [hp] at h
    cases b <;> simp at h
    subst h; rfl

theorem Storage.write_safety_data_error_stored (s : Storage) (d : SafetyData)
    (e : SecureStorageError) (s1 : Storage)
    (h : Storage.write_safety_data s d = (.error e, s1)) :
    s1.stored_safety_data = s.stored_safety_data := by
  unfold Storage.write_safety_data Storage.tick at h
  cases hp : s.fail_plan with
  | nil => rw [hp] at h; simp at h
  | cons b rest =>
    rw [hp] at h
    cases b <;> simp at h
    obtain ⟨-, h2⟩ := h
    subst h2; rfl

theorem Storage.write_waypoint_ok_stored (s : Storage) (w : Waypoint)
    (s1 : Storage) (h : Storage.write_waypoint s w = (.ok (), s1)) :
    s1.stored_waypoint = some w := by
  unfold Storage.write_waypoint Storage.tick at h
  cases hp : s.fail_plan with
  | nil => rw [hp] at h; simp at h; subst h; rfl
  | cons b rest =>
    rw [hp] at h
    cases b <;> simp at h
    subst h; rfl

/-! Concrete fixtures used by witnesses and counterexamples. -/

/-- A non-default SafetyData record. -/
def dWit : SafetyData := SafetyData.new 4 3 2 1 none

/-- A waypoint with a non-zero version. -/
def wWit : Waypoint := { version := 7, digest := 11 }

/-- A fully initialized backend with no injected failures. -/
def storeWit : Storage :=
  { consensus_key := some 1
    execution_key := some 2
    owner_account := some 5
    stored_safety_data := some dWit
    stored_waypoint := some wWit
    fail_plan := [] }

/-- A fully initialized backend whose next mutating call fails. -/
def storeWitFail : Storage := { storeWit with fail_plan := [true] }

/-- C6: safety_data follows the three-branch cache discipline: caching
disabled always reads the backend (observing out-of-band mutations
regardless of what the cache holds); caching enabled with a Known cache
returns the cached value leaving the state untouched; caching enabled with
an Unknown cache reads the backend, caches the value Known, and returns
it. -/
theorem safety_data_cache_discipline (st : PersistentSafetyStorage) :
    (st.enable_cached_safety_data = false →
      ∀ v, Storage.read_safety_data st.internal_store = .ok v →
        PersistentSafetyStorage.safety_data st = (.ok v, st)) ∧
    (st.enable_cached_safety_data = true →
      ∀ c, st.cached_safety_data = some c →
        PersistentSafetyStorage.safety_data st = (.ok c, st)) ∧
    (st.enable_cached_safety_data = true →
      st.cached_safety_data = none →
      ∀ v, Storage.read_safety_data st.internal_store = .ok v →
        PersistentSafetyStorage.safety_data st =
          (.ok v, { st with cached_safety_data := some v })) := by
  refine ⟨?_, ?_, ?_⟩
  · intro h v hr
    simp [PersistentSafetyStorage.safety_data, h, hr]
  · intro h c hc
    simp [PersistentSafetyStorage.safety_data, h, hc]
  · intro h hc v hr
    simp [PersistentSafetyStorage.safety_data, h, hc, hr]

/-- Witness for C6: the three branches at concrete states: caching disabled
over storeWit; caching enabled with a warm cache; caching enabled with a
cold cache. -/
theorem safety_data_cache_discipline_witness :
    PersistentSafetyStorage.safety_data ⟨false, none, storeWit⟩ =
      (.ok dWit, ⟨false, none, storeWit⟩) ∧
    PersistentSafetyStorage.safety_data ⟨true, some dWit, storeWit⟩ =
      (.ok dWit, ⟨true, some dWit, storeWit⟩) ∧
    PersistentSafetyStorage.safety_data ⟨true, none, storeWit⟩ =
      (.ok dWit, ⟨true, some dWit, storeWit⟩) :=
  ⟨(safety_data_cache_discipline ⟨false, none, storeWit⟩).1 rfl dWit rfl,
   (safety_data_cache_discipline ⟨true, some dWit, storeWit⟩).2.1 rfl dWit rfl,
   (safety_data_cache_discipline ⟨true, none, storeWit⟩).2.2 rfl rfl dWit rfl⟩

/-- A second, distinct SafetyData record, matching the one written in the
source's own counter test. -/
def dWit2 : SafetyData := SafetyData.new 9 8 1 0 none

/-- A second waypoint with a distinct version. -/
def wWit2 : Waypoint := { version := 9, digest := 13 }

/-- C2: set_safety_data writes through to the backend synchronously: when the
backend write succeeds the call returns success and the cache becomes Known
of exactly the written value, now stored in the backend; when the backend
write fails the cache becomes Unknown (holding neither the pre-write value
nor the attempted one) and the wrapped error is propagated. -/
theorem set_safety_data_write_through (st : PersistentSafetyStorage) (obs : Obs)
    (d : SafetyData) :
    (∀ s1, Storage.write_safety_data st.internal_store d = (.ok (), s1) →
      PersistentSafetyStorage.set_safety_data st obs d =
        (.ok (), { st with cached_safety_data := some d, internal_store := s1 },
          { obs with counters :=
            { obs.counters with
              epoch := u64_as_i64 d.epoch
              last_voted_round := u64_as_i64 d.last_voted_round
              preferred_round := u64_as_i64 d.preferred_round } }) ∧
      s1.stored_safety_data = some d) ∧
    (∀ e s1, Storage.write_safety_data st.internal_store d = (.error e, s1) →
      PersistentSafetyStorage.set_safety_data st obs d =
        (.error (.secureStorageUnexpectedError e),
          { st with cached_safety_data := none, internal_store := s1 },
          { obs with counters :=
            { obs.counters with
              epoch := u64_as_i64 d.epoch
              last_voted_round := u64_as_i64 d.last_voted_round
              preferred_round := u64_as_i64 d.preferred_round } })) := by
  constructor
  · intro s1 h
    exact ⟨by simp [PersistentSafetyStorage.set_safety_data, h],
           Storage.write_safety_data_ok_stored _ _ _ h⟩
  · intro e s1 h
    simp [PersistentSafetyStorage.set_safety_data, h]

/-- Witness for C2: a succeeding write caches Known of the written value; a
failing write leaves the cache Unknown. -/
theorem set_safety_data_write_through_witness :
    Storage.write_safety_data storeWit dWit2 =
      (.ok (), { storeWit with stored_safety_data := some dWit2 }) ∧
    (PersistentSafetyStorage.set_safety_data ⟨true, some dWit, storeWit⟩
      Obs.init dWit2).2.1.cached_safety_data = some dWit2 ∧
    Storage.write_safety_data storeWitFail dWit2 = (.error .unavailable, storeWit) ∧
    (PersistentSafetyStorage.set_safety_data ⟨true, some dWit, storeWitFail⟩
      Obs.init dWit2).2.1.cached_safety_data = none := by
  refine ⟨rfl, ?_, rfl, ?_⟩
  · rw [((set_safety_data_write_through ⟨true, some dWit, storeWit⟩ Obs.init dWit2).1
      { storeWit with stored_safety_data := some dWit2 } rfl).1]
  · rw [(set_safety_data_write_through ⟨true, some dWit, storeWitFail⟩ Obs.init dWit2).2
      .unavailable storeWit rfl]

/-- C3: after a failed set_safety_data(d) the backend still holds the last
value it actually accepted, and the next safety_data() call re-consults the
backend and returns that value; in particular it does not return d whenever
d differs from that last accepted value. -/
theorem set_safety_data_failure_reread (st : PersistentSafetyStorage)
    {st' : PersistentSafetyStorage} (obs : Obs) {obs' : Obs} (d v : SafetyData)
    {e : Error}
    (h : PersistentSafetyStorage.set_safety_data st obs d = (.error e, st', obs'))
    (hr : Storage.read_safety_data st'.internal_store = .ok v) :
    st'.internal_store.stored_safety_data = st.internal_store.stored_safety_data ∧
    (PersistentSafetyStorage.safety_data st').1 = .ok v ∧
    (v ≠ d → (PersistentSafetyStorage.safety_data st').1 ≠ .ok d) := by
  rcases hw : Storage.write_safety_data st.internal_store d with ⟨r, s1⟩
  cases r with
  | ok u => simp [PersistentSafetyStorage.set_safety_data, hw] at h
  | error e0 =>
    simp [PersistentSafetyStorage.set_safety_data, hw] at h
    obtain ⟨h1, h2, h3⟩ := h
    subst h2
    have hmain : (PersistentSafetyStorage.safety_data
        { st with cached_safety_data := none, internal_store := s1 }).1 = .ok v := by
      cases hE : st.enable_cached_safety_data <;>
        simp [PersistentSafetyStorage.safety_data, hE, hr]
    refine ⟨Storage.write_safety_data_error_stored _ _ _ _ hw, hmain, ?_⟩
    intro hne hcontra
    rw [hmain] at hcontra
    simp at hcontra
    exact hne hcontra

/-- Witness for C3: a failed write of dWit2 over a backend holding dWit makes
the next read return dWit, not dWit2. -/
theorem set_safety_data_failure_reread_witness :
    storeWit.stored_safety_data = storeWitFail.stored_safety_data ∧
    (PersistentSafetyStorage.safety_data ⟨true, none, storeWit⟩).1 = .ok dWit ∧
    (PersistentSafetyStorage.safety_data ⟨true, none, storeWit⟩).1 ≠ .ok dWit2 := by
  have h := set_safety_data_failure_reread ⟨true, some dWit, storeWitFail⟩
    Obs.init dWit2 dWit rfl rfl
  exact ⟨h.1, h.2.1, h.2.2 (by decide)⟩

/-- C4: if set_safety_data(d) returns success then an immediately following
safety_data() call returns exactly d, whichever the caching mode. -/
theorem set_safety_data_then_get (st : PersistentSafetyStorage)
    {st' : PersistentSafetyStorage} (obs : Obs) {obs' : Obs} (d : SafetyData)
    (h : PersistentSafetyStorage.set_safety_data st obs d = (.ok (), st', obs')) :
    (PersistentSafetyStorage.safety_data st').1 = .ok d := by
  rcases hw : Storage.write_safety_data st.internal_store d with ⟨r, s1⟩
  cases r with
  | error e0 => simp [PersistentSafetyStorage.set_safety_data, hw] at h
  | ok u =>
    simp [PersistentSafetyStorage.set_safety_data, hw] at h
    obtain ⟨h2, h3⟩ := h
    subst h2
    have hs : s1.stored_safety_data = some d :=
      Storage.write_safety_data_ok_stored _ _ _ hw
    cases hE : st.enable_cached_safety_data <;>
      simp [PersistentSafetyStorage.safety_data, hE, Storage.read_safety_data, hs]

/-- Witness for C4: with caching disabled, a successful write of dWit2 is
followed by a read returning dWit2 (the enabled mode is exercised by the C6
witness). -/
theorem set_safety_data_then_get_witness :
    (PersistentSafetyStorage.safety_data
      ⟨false, some dWit2, { storeWit with stored_safety_data := some dWit2 }⟩).1 =
      .ok dWit2 :=
  set_safety_data_then_get ⟨false, none, storeWit⟩ Obs.init dWit2 rfl

/-- C8: set_waypoint writes through to the backend; exactly when the backend
write succeeds one structured audit record for the waypoint update is
appended to the audit log, and when the write fails the error is propagated
and no audit record is emitted (the gauge export happens in both cases). -/
theorem set_waypoint_write_through_audit (st : PersistentSafetyStorage)
    (obs : Obs) (w : Waypoint) :
    (∀ s1, Storage.write_waypoint st.internal_store w = (.ok (), s1) →
      PersistentSafetyStorage.set_waypoint st obs w =
        (.ok (), { st with internal_store := s1 },
          { counters := { obs.counters with waypoint_version := u64_as_i64 w.version }
            waypoint_audit := obs.waypoint_audit ++ [w] }) ∧
      s1.stored_waypoint = some w) ∧
    (∀ e s1, Storage.write_waypoint st.internal_store w = (.error e, s1) →
      PersistentSafetyStorage.set_waypoint st obs w =
        (.error (.secureStorageError e), { st with internal_store := s1 },
          { counters := { obs.counters with waypoint_version := u64_as_i64 w.version }
            waypoint_audit := obs.waypoint_audit })) := by
  constructor
  · intro s1 h
    exact ⟨by simp [PersistentSafetyStorage.set_waypoint, h],
           Storage.write_waypoint_ok_stored _ _ _ h⟩
  · intro e s1 h
    simp [PersistentSafetyStorage.set_waypoint, h]

/-- Witness for C8: a succeeding waypoint write emits exactly one audit
record; a failing one emits none. -/
theorem set_waypoint_write_through_audit_witness :
    PersistentSafetyStorage.set_waypoint ⟨true, some dWit, storeWit⟩ Obs.init wWit2 =
      (.ok (), ⟨true, some dWit, { storeWit with stored_waypoint := some wWit2 }⟩,
        { counters := { Obs.init.counters with waypoint_version := u64_as_i64 9 }
          waypoint_audit := [wWit2] }) ∧
    PersistentSafetyStorage.set_waypoint ⟨true, some dWit, storeWitFail⟩ Obs.init wWit2 =
      (.error (.secureStorageError .unavailable), ⟨true, some dWit, storeWit⟩,
        { counters := { Obs.init.counters with waypoint_version := u64_as_i64 9 }
          waypoint_audit := [] }) :=
  ⟨((set_waypoint_write_through_audit ⟨true, some dWit, storeWit⟩ Obs.init wWit2).1
      { storeWit with stored_waypoint := some wWit2 } rfl).1,
   (set_waypoint_write_through_audit ⟨true, some dWit, storeWitFail⟩ Obs.init wWit2).2
      .unavailable storeWit rfl⟩

/-- C9: set_safety_data exports the epoch, last-voted-round and
preferred-round gauges and set_waypoint exports the waypoint-version gauge
before attempting the backend write, so in every outcome, and in particular
at the moment a rejected write returns its error, the returned gauge state
already reflects the attempted values, each exported through the source's
wrapping as-i64 cast of its u64 field. -/
theorem gauges_reflect_attempted_values (st : PersistentSafetyStorage)
    (obs : Obs) (d : SafetyData) (w : Waypoint) :
    ((PersistentSafetyStorage.set_safety_data st obs d).2.2.counters.epoch =
        u64_as_i64 d.epoch ∧
      (PersistentSafetyStorage.set_safety_data st obs d).2.2.counters.last_voted_round =
        u64_as_i64 d.last_voted_round ∧
      (PersistentSafetyStorage.set_safety_data st obs d).2.2.counters.preferred_round =
        u64_as_i64 d.preferred_round) ∧
    (PersistentSafetyStorage.set_waypoint st obs w).2.2.counters.waypoint_version =
      u64_as_i64 w.version := by
  constructor
  · rcases hw : Storage.write_safety_data st.internal_store d with ⟨r, s1⟩
    cases r <;> simp [PersistentSafetyStorage.set_safety_data, hw]
  · rcases hw : Storage.write_waypoint st.internal_store w with ⟨r, s1⟩
    cases r <;> simp [PersistentSafetyStorage.set_waypoint, hw]

/-- C10: new wraps the given store performing no backend operation and starts
with the cache Unknown, so the first safety_data() call on such an instance
reads the backend whichever the caching mode. -/
theorem new_cold_cache (store : Storage) (b : Bool) :
    (PersistentSafetyStorage.new store b).cached_safety_data = none ∧
    (PersistentSafetyStorage.new store b).internal_store = store ∧
    (∀ v, Storage.read_safety_data store = .ok v →
      (PersistentSafetyStorage.safety_data (PersistentSafetyStorage.new store b)).1 =
        .ok v) := by
  refine ⟨rfl, rfl, ?_⟩
  intro v hr
  cases b <;>
    simp [PersistentSafetyStorage.new, PersistentSafetyStorage.safety_data, hr]

/-- Witness for C10: over the populated backend, the first read after new
returns the stored value with caching enabled and with caching disabled. -/
theorem new_cold_cache_witness :
    (PersistentSafetyStorage.new storeWit true).cached_safety_data = none ∧
    (PersistentSafetyStorage.safety_data (PersistentSafetyStorage.new storeWit true)).1 =
      .ok dWit ∧
    (PersistentSafetyStorage.safety_data (PersistentSafetyStorage.new storeWit false)).1 =
      .ok dWit :=
  ⟨(new_cold_cache storeWit true).1,
   (new_cold_cache storeWit true).2.2 dWit rfl,
   (new_cold_cache storeWit false).2.2 dWit rfl⟩

/-- C1 (amended): a second initialize against a backend whose consensus key
already exists returns successfully and leaves the consensus key, execution
key and owner account unchanged, but it re-writes the safety data with the
default record and the waypoint with the supplied waypoint, and warms the
cache with the default record. -/
theorem initialize_reinit (store : Storage) (obs : Obs) (a : Author)
    (ck ek : PrivKey) (w : Waypoint) (b : Bool) (k : PrivKey)
    (hck : store.consensus_key = some k)
    (hplan : store.fail_plan = []) :
    ∃ st' obs',
      PersistentSafetyStorage.initialize_store store obs a ck ek w b = some (st', obs') ∧
      st'.internal_store.consensus_key = some k ∧
      st'.internal_store.execution_key = store.execution_key ∧
      st'.internal_store.owner_account = store.owner_account ∧
      st'.internal_store.stored_safety_data = some (SafetyData.new 1 0 0 0 none) ∧
      st'.internal_store.stored_waypoint = some w ∧
      st'.cached_safety_data = some (SafetyData.new 1 0 0 0 none) := by
  obtain ⟨cks, eks, oas, sds, wps, fp⟩ := store
  obtain rfl : cks = some k := hck
  obtain rfl : fp = [] := hplan
  exact ⟨⟨b, some (SafetyData.new 1 0 0 0 none),
          ⟨some k, eks, oas, some (SafetyData.new 1 0 0 0 none), some w, []⟩⟩,
         { counters := { epoch := u64_as_i64 1, last_voted_round := u64_as_i64 0,
                         preferred_round := u64_as_i64 0,
                         waypoint_version := u64_as_i64 w.version }
           waypoint_audit := obs.waypoint_audit ++ [w] },
         rfl, rfl, rfl, rfl, rfl, rfl, rfl⟩

/-- Witness for C1 (amended): re-initializing over the fully populated
backend storeWit succeeds and resets the safety data and waypoint. -/
theorem initialize_reinit_witness :
    ∃ st' obs',
      PersistentSafetyStorage.initialize_store storeWit Obs.init 5 1 2 wWit true =
        some (st', obs') ∧
      st'.internal_store.consensus_key = some 1 ∧
      st'.internal_store.execution_key = storeWit.execution_key ∧
      st'.internal_store.owner_account = storeWit.owner_account ∧
      st'.internal_store.stored_safety_data = some (SafetyData.new 1 0 0 0 none) ∧
      st'.internal_store.stored_waypoint = some wWit ∧
      st'.cached_safety_data = some (SafetyData.new 1 0 0 0 none) :=
  initialize_reinit storeWit Obs.init 5 1 2 wWit true 1 rfl rfl

/-- Counterexample to C1 as stated: against a backend whose safety data was
advanced to the epoch-9 record after the first initialize, a second
initialize with the same author, keys and waypoint does not leave the safety
data unchanged: it overwrites it with the default epoch-1 record. -/
theorem initialize_reinit_counterexample :
    (PersistentSafetyStorage.initialize_store
        ⟨some 1, some 2, some 5, some (SafetyData.new 9 8 1 0 none),
          some { version := 0, digest := 0 }, []⟩
        Obs.init 5 1 2 { version := 0, digest := 0 } true).map
      (fun p => p.1.internal_store.stored_safety_data) =
      some (some (SafetyData.new 1 0 0 0 none)) ∧
    SafetyData.new 1 0 0 0 none ≠ SafetyData.new 9 8 1 0 none := by
  exact ⟨rfl, by decide⟩

/-- C5 (amended): during a fresh initialization, a backend error at any of
the import-execution-key, write-author, write-safety-data or write-waypoint
steps is fatal: initialize never completes normally after a failure injected
at any of those four steps (a non-already-exists error at the consensus-key
step, by contrast, is swallowed; see the counterexample). -/
theorem initialize_fatal_after_consensus_import (store : Storage) (obs : Obs)
    (a : Author) (ck ek : PrivKey) (w : Waypoint) (b : Bool)
    (hck : store.consensus_key = none) :
    (∀ b0 r, store.fail_plan = b0 :: true :: r →
      PersistentSafetyStorage.initialize_store store obs a ck ek w b = none) ∧
    (∀ b0 r, store.fail_plan = b0 :: false :: true :: r →
      PersistentSafetyStorage.initialize_store store obs a ck ek w b = none) ∧
    (∀ b0 r, store.fail_plan = b0 :: false :: false :: true :: r →
      PersistentSafetyStorage.initialize_store store obs a ck ek w b = none) ∧
    (∀ b0 r, store.fail_plan = b0 :: false :: false :: false :: true :: r →
      PersistentSafetyStorage.initialize_store store obs a ck ek w b = none) := by
  obtain ⟨cks, eks, oas, sds, wps, fp⟩ := store
  obtain rfl : cks = none := hck
  refine ⟨?_, ?_, ?_, ?_⟩ <;>
  · intro b0 r hp
    obtain rfl : fp = _ := hp
    cases b0 <;> cases eks <;> rfl

/-- Witness for C5 (amended): a failure injected at the execution-key-import
step of a fresh initialization aborts it. -/
theorem initialize_fatal_after_consensus_import_witness :
    PersistentSafetyStorage.initialize_store ⟨none, none, none, none, none, [false, true]⟩
      Obs.init 5 1 2 wWit true = none :=
  (initialize_fatal_after_consensus_import ⟨none, none, none, none, none, [false, true]⟩
    Obs.init 5 1 2 wWit true rfl).1 false [] rfl

/-- Counterexample to C5 as stated: on a fresh backend where the consensus
key fails to be imported with an unavailable error (not key-already-exists),
initialize nevertheless completes normally, returning an instance whose
backend holds no consensus key at all. -/
theorem initialize_swallowed_error_counterexample :
    (Storage.import_consensus_key ⟨none, none, none, none, none, [true]⟩ 1).1 =
      .error .unavailable ∧
    (PersistentSafetyStorage.initialize_store ⟨none, none, none, none, none, [true]⟩
      Obs.init 5 1 2 { version := 0, digest := 0 } true).isSome = true ∧
    (PersistentSafetyStorage.initialize_store ⟨none, none, none, none, none, [true]⟩
      Obs.init 5 1 2 { version := 0, digest := 0 } true).map
      (fun p => p.1.internal_store.consensus_key) = some none := by
  exact ⟨rfl, rfl, rfl⟩

/-- C7: a fresh successful initialize with caching enabled yields an instance
whose cache is Known of the default record (epoch 1, all rounds 0, no last
vote), whose safety_data() returns that default record, whose waypoint()
returns the supplied waypoint and whose author() returns the supplied
author. -/
theorem initialize_fresh (store : Storage) (obs : Obs) (a : Author)
    (ck ek : PrivKey) (w : Waypoint)
    (hck : store.consensus_key = none)
    (hek : store.execution_key = none)
    (hplan : store.fail_plan = []) :
    ∃ st' obs',
      PersistentSafetyStorage.initialize_store store obs a ck ek w true = some (st', obs') ∧
      st'.cached_safety_data = some (SafetyData.new 1 0 0 0 none) ∧
      (PersistentSafetyStorage.safety_data st').1 = .ok (SafetyData.new 1 0 0 0 none) ∧
      PersistentSafetyStorage.waypoint st' = .ok w ∧
      PersistentSafetyStorage.author st' = .ok a := by
  obtain ⟨cks, eks, oas, sds, wps, fp⟩ := store
  obtain rfl : cks = none := hck
  obtain rfl : eks = none := hek
  obtain rfl : fp = [] := hplan
  exact ⟨⟨true, some (SafetyData.new 1 0 0 0 none),
          ⟨some ck, some ek, some a, some (SafetyData.new 1 0 0 0 none), some w, []⟩⟩,
         { counters := { epoch := u64_as_i64 1, last_voted_round := u64_as_i64 0,
                         preferred_round := u64_as_i64 0,
                         waypoint_version := u64_as_i64 w.version }
           waypoint_audit := obs.waypoint_audit ++ [w] },
         rfl, rfl, rfl, rfl, rfl⟩

/-- Witness for C7: a fresh initialize over an empty backend. -/
theorem initialize_fresh_witness :
    ∃ st' obs',
      PersistentSafetyStorage.initialize_store ⟨none, none, none, none, none, []⟩
        Obs.init 5 1 2 wWit true = some (st', obs') ∧
      st'.cached_safety_data = some (SafetyData.new 1 0 0 0 none) ∧
      (PersistentSafetyStorage.safety_data st').1 = .ok (SafetyData.new 1 0 0 0 none) ∧
      PersistentSafetyStorage.waypoint st' = .ok wWit ∧
      PersistentSafetyStorage.author st' = .ok 5 :=
  initialize_fresh ⟨none, none, none, none, none, []⟩ Obs.init 5 1 2 wWit rfl rfl rfl
